import Mathlib

/-!
Shallow embedding of the StethApp model-compatibility utility scripts.

Each Python script is modelled as a pure function from the results of its
external TensorFlow / TFLite library calls (loading an interpreter,
converting a model) to an explicit record of its observable effects:
the list of printed lines and the list of files written.  External calls
that may raise are modelled as `Except String` values; a `try/except`
block in the source becomes a `match` on that value, and an exception
raised outside any `try` block becomes an `Except.error` result of the
whole script.
-/

/-- One entry of `interpreter._get_ops_details()`: a Python dict whose
op_name and version fields are read with `op.get`, defaulting to the
string Unknown, so both fields may be absent. -/
structure OpDetail where
  op_name : Option String
  version : Option Int
deriving Repr, DecidableEq

/-- What a successfully loaded TFLite interpreter reports: the first input
tensor's shape, the first output tensor's shape, and the operator list in
the order `_get_ops_details()` returns it. -/
structure ModelInfo where
  inputShape : List Nat
  outputShape : List Nat
  ops : List OpDetail
deriving Repr, DecidableEq

/-- Observable effects of a script run: lines printed to stdout (one list
element per `print` call) and files written (path, content). -/
structure Effects where
  output : List String
  writes : List (String × String)
deriving Repr, DecidableEq

/-- A line of `=` characters, as produced by `"=" * n` in the source. -/
def eqLine (n : Nat) : String := String.mk (List.replicate n '=')

namespace CheckModelVersions

/-! Embedding of `check_model_versions.py`.  The module-level code prints a
header, analyzes `best_model.tflite` inside one `try/except`, analyzes
`minimal_model.tflite` inside a second `try/except`, and prints a summary.
The external interpreter work of each `try` block (constructing the
interpreter, allocating tensors, fetching details) is modelled as a single
`Except String ModelInfo` argument. -/

/-- The op_name field as read at check_model_versions.py line 28,
defaulting to the string Unknown when absent. -/
def opName (op : OpDetail) : String := op.op_name.getD "Unknown"

/-- The printed form of the version field, defaulting to the string
Unknown when absent (check_model_versions.py line 29). -/
def opVersionStr (op : OpDetail) : String :=
  match op.version with
  | some v => toString v
  | none => "Unknown"

/-- The per-operator entry line `  - {op_name} (version {version})`
(check_model_versions.py lines 30 and 60). -/
def entryLine (n v : String) : String := "  - " ++ n ++ " (version " ++ v ++ ")"

/-- The incompatibility flag printed at check_model_versions.py line 34. -/
def incompatLine : String :=
  "    ❌ INCOMPATIBLE: This version is not supported by TFLite Flutter 0.11.0"

/-- The compatibility note printed at check_model_versions.py line 36. -/
def compatLine (v : String) : String :=
  "    ✅ COMPATIBLE: Version " ++ v ++ " should work"

/-- Loop body of the `best_model.tflite` inspection
(check_model_versions.py lines 27-36): print the entry line, then flag
`FULLY_CONNECTED` version 12 as incompatible, and any other
`FULLY_CONNECTED` as compatible. -/
def reportOpBest (op : OpDetail) : List String :=
  let base := entryLine (opName op) (opVersionStr op)
  if opName op = "FULLY_CONNECTED" ∧ op.version = some 12 then
    [base, incompatLine]
  else if opName op = "FULLY_CONNECTED" then
    [base, compatLine (opVersionStr op)]
  else
    [base]

/-- Loop body of the `minimal_model.tflite` inspection
(check_model_versions.py lines 57-60): the entry line only, with no
compatibility check. -/
def reportOpMinimal (op : OpDetail) : List String :=
  [entryLine (opName op) (opVersionStr op)]

/-- Diagnostic printed by the first `except` block
(check_model_versions.py line 39). -/
def errBestDiag (e : String) : String :=
  "❌ Error analyzing best_model.tflite: " ++ e

/-- Diagnostic printed by the second `except` block
(check_model_versions.py line 63). -/
def errMinDiag (e : String) : String :=
  "❌ Error analyzing minimal_model.tflite: " ++ e

/-- First `try/except` block (check_model_versions.py lines 13-39). -/
def analyzeBest (r : Except String ModelInfo) : List String :=
  "\nAnalyzing best_model.tflite..." ::
  match r with
  | .error e => [errBestDiag e]
  | .ok m =>
      ("Input shape: " ++ toString m.inputShape) ::
      ("Output shape: " ++ toString m.outputShape) ::
      "Operations used:" ::
      (m.ops.map reportOpBest).flatten

/-- Second `try/except` block (check_model_versions.py lines 44-63). -/
def analyzeMinimal (r : Except String ModelInfo) : List String :=
  "\nAnalyzing minimal_model.tflite..." ::
  match r with
  | .error e => [errMinDiag e]
  | .ok m =>
      ("Input shape: " ++ toString m.inputShape) ::
      ("Output shape: " ++ toString m.outputShape) ::
      "Operations used:" ::
      (m.ops.map reportOpMinimal).flatten

/-- Header prints (check_model_versions.py lines 4-10); `tfv` is
`tf.__version__`. -/
def headerLines (tfv : String) : List String :=
  [ "TensorFlow version: " ++ tfv,
    "TensorFlow Lite version compatibility:",
    "- TF 2.15+ uses FULLY_CONNECTED v12+ (incompatible with TFLite Flutter 0.11.0)",
    "- TF 2.8-2.14 uses FULLY_CONNECTED v11 (compatible)",
    "- TF 2.4-2.7 uses FULLY_CONNECTED v9-v10 (compatible)" ]

/-- The `print("\n" + "="*60)` separator (lines 10, 41, 65). -/
def sepBlock : List String := ["\n" ++ eqLine 60]

/-- Summary prints (check_model_versions.py lines 66-71). -/
def summaryLines : List String :=
  [ "SUMMARY:",
    "TFLite Flutter 0.11.0 supports:",
    "- FULLY_CONNECTED versions up to v11",
    "- Most other operations up to TF 2.14 level",
    "Your best_model.tflite likely uses FULLY_CONNECTED v12 (from TF 2.15+)",
    "The minimal_model.tflite should be compatible" ]

/-- The whole script `check_model_versions.py`, given `tf.__version__` and
the outcomes of the two interpreter loads. -/
def check_model_versions (tfv : String) (rB rM : Except String ModelInfo) :
    List String :=
  headerLines tfv ++ sepBlock ++ analyzeBest rB ++ sepBlock ++
    analyzeMinimal rM ++ sepBlock ++ summaryLines

end CheckModelVersions

namespace ConvertModelCompatible

/-! Embedding of `convert_model_compatible.py`.  The function
`convert_with_compatibility_flags` wraps its interpreter work in one
`try/except`; that interpreter work is modelled as an
`Except String ModelInfo` argument. -/

/-- `convert_with_compatibility_flags` (convert_model_compatible.py lines
9-40): on a successful load it prints the model details and a refusal and
returns `False`; on an exception it prints the error and returns `False`.
It performs no file writes on either path. -/
def convert_with_compatibility_flags (r : Except String ModelInfo) :
    Effects × Bool :=
  match r with
  | .ok m =>
      ({ output :=
          [ "Original model details:",
            "Input shape: " ++ toString m.inputShape,
            "Output shape: " ++ toString m.outputShape,
            "❌ Cannot directly convert TFLite to compatible TFLite",
            "You need to recreate the model with TensorFlow 2.8 or 2.9" ],
         writes := [] }, false)
  | .error e =>
      ({ output := ["Error: " ++ e], writes := [] }, false)

/-- The fixed `script_content` template written by
`create_compatible_converter_script` (convert_model_compatible.py lines
46-78); byte-identical to the repository file
`create_compatible_model.py`. -/
def scriptTemplate : String :=
  "\nimport tensorflow as tf\n\n# Load your original model (before TFLite conversion)\n# Replace this with your actual model loading code\nmodel = tf.keras.models.load_model(\"your_original_model.h5\")\n\n# Create converter with compatibility settings\nconverter = tf.lite.TFLiteConverter.from_keras_model(model)\n\n# Set compatibility options for TFLite Flutter 0.11.0\nconverter.optimizations = [tf.lite.Optimize.DEFAULT]\nconverter.target_spec.supported_ops = [\n    tf.lite.OpsSet.TFLITE_BUILTINS,\n]\n\n# Force use of older op versions\nconverter.experimental_new_converter = False\nconverter.experimental_new_quantizer = False\n\n# Convert with compatibility\ntry:\n    tflite_model = converter.convert()\n    \n    # Save compatible model\n    with open(\"assets/models/best_model_compatible.tflite\", \"wb\") as f:\n        f.write(tflite_model)\n    \n    print(\"✅ Compatible model created!\")\n    \nexcept Exception as e:\n    print(f\"Conversion failed: {e}\")\n"

/-- `create_compatible_converter_script` (convert_model_compatible.py
lines 42-84): writes the template to `create_compatible_model.py` and
prints two follow-up lines. -/
def create_compatible_converter_script : Effects :=
  { output :=
      [ "✅ Created \x27create_compatible_model.py\x27 template",
        "Edit it with your original model path and run it" ],
    writes := [("create_compatible_model.py", scriptTemplate)] }

/-- The `SOLUTION` prints of the `__main__` block
(convert_model_compatible.py lines 94-99). -/
def solutionLines : List String :=
  [ "\n" ++ eqLine 50,
    "SOLUTION:",
    "1. Edit \x27create_compatible_model.py\x27 with your original model path",
    "2. Run: python create_compatible_model.py",
    "3. Replace best_model.tflite with best_model_compatible.tflite",
    eqLine 50 ]

/-- The `__main__` block (convert_model_compatible.py lines 86-99): run
the downgrade attempt; if it reports failure, emit the template script and
print the follow-up instructions. -/
def convert_main (r : Except String ModelInfo) : Effects :=
  let c := convert_with_compatibility_flags r
  if c.2 then c.1
  else
    { output := c.1.output ++ create_compatible_converter_script.output ++
        solutionLines,
      writes := c.1.writes ++ create_compatible_converter_script.writes }

end ConvertModelCompatible

namespace CreateCompatibleModel

/-! Embedding of the repository file `create_compatible_model.py` (the
generated template script).  Its `tf.keras.models.load_model` call at
line 6 and the converter construction sit at module level, outside any
`try`; only `converter.convert()` and the subsequent save are inside the
`try/except` of lines 22-32.  A failure of the unguarded prefix therefore
propagates as an `Except.error` of the whole script. -/

/-- The script `create_compatible_model.py` given the outcome `lm` of the
unguarded `load_model` call (line 6) and the outcome `cv` of
`converter.convert()` (line 23, inside the `try`).  `Except.error` means
the script itself terminates with an unhandled exception. -/
def create_compatible_model_script (lm : Except String Unit)
    (cv : Except String String) : Except String Effects :=
  match lm with
  | .error e => .error e
  | .ok _ =>
      match cv with
      | .ok m =>
          .ok { output := ["✅ Compatible model created!"],
                writes := [("assets/models/best_model_compatible.tflite", m)] }
      | .error e =>
          .ok { output := ["Conversion failed: " ++ e], writes := [] }

end CreateCompatibleModel

namespace CreateMinimalModel

/-! Embedding of `create_minimal_model.py`.  The `simple_model`
`tf.function` (lines 16-29) is modelled by its shape semantics; the
conversion and the post-write interpreter test are modelled as `Except`
arguments. -/

/-- Shape of `tf.reduce_mean(x, axis=a)` with the default
`keepdims=False`: the axis is removed. -/
def reduceMeanShape (s : List Nat) (a : Nat) : List Nat := s.eraseIdx a

/-- Shape of `tf.reshape(x, target)`: defined when the element counts
agree. -/
def reshapeShape (s target : List Nat) : Option (List Nat) :=
  if s.prod = target.prod then some target else none

/-- Shape of `tf.matmul` on rank-2 operands. -/
def matmulShape : List Nat → List Nat → Option (List Nat)
  | [a, b], [b', c] => if b = b' then some [a, c] else none
  | _, _ => none

/-- Shape of `tf.nn.softmax`: unchanged. -/
def softmaxShape (s : List Nat) : List Nat := s

/-- Shape semantics of `simple_model` (create_minimal_model.py lines
16-29): `reduce_mean` over axis 1, reshape to `[1, 1]`, matmul with the
constant `[1, 3]` weight matrix `w1`, softmax. -/
def simple_model_shape (inp : List Nat) : Option (List Nat) := do
  let x := reduceMeanShape inp 1
  let x ← reshapeShape x [1, 1]
  let x ← matmulShape x [1, 3]
  pure (softmaxShape x)

/-- The fixed `tf.TensorSpec` input signature of the concrete function
(create_minimal_model.py line 33). -/
def minimalInputSpec : List Nat := [1, 32000, 1]

/-- Diagnostic of the `except` block (create_minimal_model.py line 69). -/
def minimalDiag (e : String) : String :=
  "❌ Failed to create minimal model: " ++ e

/-- `create_minimal_tflite` (create_minimal_model.py lines 9-70), given
the outcome `cv` of `converter.convert()` and the outcome `testR` of the
post-write interpreter test (interpreter construction, shape queries and
the dummy invocation of lines 50-64, modelled as one `Except` producing
the model details and the printed test-output text).  The artifact is
written only inside the `try`, immediately after a successful
conversion. -/
def create_minimal_tflite (cv : Except String String)
    (testR : Except String (ModelInfo × String)) : Effects × Bool :=
  match cv with
  | .error e => ({ output := [minimalDiag e], writes := [] }, false)
  | .ok m =>
      let w := [("assets/models/minimal_model.tflite", m)]
      match testR with
      | .error e =>
          ({ output := ["✅ Minimal TFLite model created!", minimalDiag e],
             writes := w }, false)
      | .ok (info, testOut) =>
          ({ output :=
              [ "✅ Minimal TFLite model created!",
                "Input shape: " ++ toString info.inputShape,
                "Output shape: " ++ toString info.outputShape,
                "Test output: " ++ testOut ],
             writes := w }, true)

end CreateMinimalModel

namespace CreateSimpleModel

/-! Embedding of `create_simple_model.py`.  The Keras model of lines
14-20 is modelled by its layer-shape semantics; `model.summary()` output
is an argument, as is the conversion outcome and the post-write
interpreter test. -/

/-- Shape of `tf.keras.layers.GlobalAveragePooling1D`: `[b, steps, ch]`
becomes `[b, ch]`. -/
def globalAveragePooling1DShape : List Nat → Option (List Nat)
  | [b, _, c] => some [b, c]
  | _ => none

/-- Shape of `tf.keras.layers.Dense(units)`: the last dimension becomes
`units`. -/
def denseShape (units : Nat) (s : List Nat) : Option (List Nat) :=
  match s with
  | [] => none
  | _ => some (s.dropLast ++ [units])

/-- Shape of `tf.keras.layers.Dropout`: unchanged. -/
def dropoutShape (s : List Nat) : List Nat := s

/-- The declared input of `tf.keras.Input(shape=(32000, 1))`
(create_simple_model.py line 14) with the unit batch dimension the
converted artifact reports. -/
def simpleInputSpec : List Nat := [1, 32000, 1]

/-- Shape semantics of the create_simple_model.py model (lines 14-18):
global average pooling, `Dense(64)`, `Dense(32)`, `Dense(3)`. -/
def create_simple_compatible_model_shape (inp : List Nat) :
    Option (List Nat) := do
  let x ← globalAveragePooling1DShape inp
  let x ← denseShape 64 x
  let x ← denseShape 32 x
  denseShape 3 x

/-- Diagnostic of the `except` block (create_simple_model.py line 65). -/
def simpleDiag (e : String) : String := "❌ Failed to create model: " ++ e

/-- `create_simple_compatible_model` (create_simple_model.py lines 9-66),
given the text of `model.summary()`, the outcome of
`converter.convert()` and the outcome of the post-write interpreter test
(lines 53-60).  The artifact is written only inside the `try`, after a
successful conversion. -/
def create_simple_compatible_model (summaryText : String)
    (cv : Except String String) (testR : Except String ModelInfo) :
    Effects × Bool :=
  let pre := ["Model summary:", summaryText]
  match cv with
  | .error e => ({ output := pre ++ [simpleDiag e], writes := [] }, false)
  | .ok m =>
      let w := [("assets/models/simple_compatible_model.tflite", m)]
      let created :=
        [ "✅ Simple compatible model created!",
          "File: assets/models/simple_compatible_model.tflite" ]
      match testR with
      | .error e =>
          ({ output := pre ++ created ++ [simpleDiag e], writes := w }, false)
      | .ok info =>
          ({ output := pre ++ created ++
              [ "Input shape: " ++ toString info.inputShape,
                "Output shape: " ++ toString info.outputShape ],
             writes := w }, true)

end CreateSimpleModel

namespace CreateTf212Compatible

/-! Embedding of `create_tf212_compatible.py`.  Line 10 of the script
assigns the value 1 to the environment variable TF_USE_LEGACY_KERAS at
module level; this is recorded as an explicit effect. -/

/-- The environment-variable assignments performed at module import
(create_tf212_compatible.py line 10). -/
def moduleEnvSets : List (String × String) := [("TF_USE_LEGACY_KERAS", "1")]

/-- The declared input of `tf.keras.Input(shape=(32000, 1))`
(create_tf212_compatible.py line 18) with the unit batch dimension the
converted artifact reports. -/
def tf212InputSpec : List Nat := [1, 32000, 1]

/-- Shape semantics of the create_tf212_compatible.py model (lines
18-26): global average pooling, `Dense(128)`, dropout, `Dense(64)`,
dropout, `Dense(3)`. -/
def create_compatible_model_shape (inp : List Nat) : Option (List Nat) := do
  let x ← CreateSimpleModel.globalAveragePooling1DShape inp
  let x ← CreateSimpleModel.denseShape 128 x
  let x := CreateSimpleModel.dropoutShape x
  let x ← CreateSimpleModel.denseShape 64 x
  let x := CreateSimpleModel.dropoutShape x
  CreateSimpleModel.denseShape 3 x

/-- Diagnostic of the `except` block (create_tf212_compatible.py
line 96). -/
def tf212Diag (e : String) : String := "❌ Conversion failed: " ++ e

/-- The `FULLY_CONNECTED` verdict prints (create_tf212_compatible.py
lines 78-91): collect the versions of `FULLY_CONNECTED` ops and compare
their maximum against 11.  Entries whose `version` key is absent are
dropped (in Python such an entry would hold the string Unknown). -/
def fcVerdict (ops : List OpDetail) : List String :=
  let fcVersions :=
    (ops.filter (fun op => CheckModelVersions.opName op = "FULLY_CONNECTED")).filterMap
      (fun op => op.version)
  match fcVersions.maximum with
  | none => []
  | some mx =>
      if mx ≤ 11 then
        ["✅ FULLY_CONNECTED version " ++ toString mx ++ " - COMPATIBLE!"]
      else
        ["❌ FULLY_CONNECTED version " ++ toString mx ++ " - INCOMPATIBLE!"]

/-- Per-operator line of the post-write op listing
(create_tf212_compatible.py line 82). -/
def tf212OpLine (op : OpDetail) : String :=
  "  - " ++ CheckModelVersions.opName op ++ " (v" ++
    CheckModelVersions.opVersionStr op ++ ")"

/-- `create_compatible_model` (create_tf212_compatible.py lines 12-97),
given the text of `model.summary()`, the outcome of
`converter.convert()` and the outcome of the post-write interpreter
inspection (lines 66-91).  The artifact is written only inside the
`try`, after a successful conversion. -/
def create_compatible_model_tf212 (summaryText : String)
    (cv : Except String String) (testR : Except String ModelInfo) :
    Effects × Bool :=
  let pre := ["Model summary:", summaryText]
  match cv with
  | .error e =>
      ({ output := pre ++ ["Converting model...", tf212Diag e],
         writes := [] }, false)
  | .ok m =>
      let w := [("assets/models/best_model_compatible.tflite", m)]
      let saved :=
        [ "Converting model...",
          "✅ Compatible model saved to: assets/models/best_model_compatible.tflite" ]
      match testR with
      | .error e =>
          ({ output := pre ++ saved ++ [tf212Diag e], writes := w }, false)
      | .ok info =>
          ({ output := pre ++ saved ++
              [ "Input shape: " ++ toString info.inputShape,
                "Output shape: " ++ toString info.outputShape,
                "Operations used:" ] ++
              info.ops.map tf212OpLine ++ fcVerdict info.ops,
             writes := w }, true)

end CreateTf212Compatible

/-- A model-artifact path: a `.tflite` file under `assets/models/`. -/
def isArtifactPath (p : String) : Bool :=
  "assets/models/".data.isPrefixOf p.data && ".tflite".data.isSuffixOf p.data

/-- A well-formed loader entry: the op_name field is present and the
version field holds a non-negative integer. -/
def wellFormedOpB (op : OpDetail) : Bool :=
  op.op_name.isSome &&
    match op.version with
    | some v => decide (0 ≤ v)
    | none => false

/-- The files written by a script run that may have terminated with an
unhandled exception: none when it did. -/
def writesOf : Except String Effects → List (String × String)
  | .error _ => []
  | .ok eff => eff.writes

/-- Instance of the spec sentence that every script wraps its primary
operation in a failure-catching block, at the script
`create_compatible_model.py`: whatever the outcome of its model load and
of its conversion, the script would terminate normally. -/
def scriptCatchesAllFailures : Prop :=
  ∀ (lm : Except String Unit) (cv : Except String String),
    ∃ eff, CreateCompatibleModel.create_compatible_model_script lm cv = .ok eff

/-- The frame claim that no script sets environment variables and every
file written is a model artifact, stated on the embedded effects. -/
def noExternalStateClaim : Prop :=
  CreateTf212Compatible.moduleEnvSets = [] ∧
  ∀ r : Except String ModelInfo,
    ((ConvertModelCompatible.convert_main r).writes.all
      (fun w => isArtifactPath w.1)) = true

/-- Per-operator head line of the best_model loop: the entry line is
always printed first, before any compatibility flag. -/
theorem reportOpBest_headEntry (op : OpDetail) :
    (CheckModelVersions.reportOpBest op).head? =
      some (CheckModelVersions.entryLine (CheckModelVersions.opName op)
        (CheckModelVersions.opVersionStr op)) := by
  unfold CheckModelVersions.reportOpBest
  split
  · simp
  · split <;> simp

/-- Flattening a map to singleton lists is the plain map. -/
theorem flatten_map_singleton {α β : Type} (l : List α) (f : α → β) :
    (l.map fun a => [f a]).flatten = l.map f := by
  induction l with
  | nil => rfl
  | cons a t ih => simp [ih]

/-- The downgraded-artifact output path is an artifact path. -/
theorem artifactPath_best :
    isArtifactPath "assets/models/best_model_compatible.tflite" = true := by
  decide

/-- The minimal-model output path is an artifact path. -/
theorem artifactPath_minimal :
    isArtifactPath "assets/models/minimal_model.tflite" = true := by
  decide

/-- The simple-model output path is an artifact path. -/
theorem artifactPath_simple :
    isArtifactPath "assets/models/simple_compatible_model.tflite" = true := by
  decide

open CheckModelVersions ConvertModelCompatible CreateCompatibleModel
open CreateMinimalModel CreateSimpleModel CreateTf212Compatible

/-- C1 counterexample: the claim says the inspection routine flags a
FULLY_CONNECTED version-12 operator as incompatible for every artifact it
inspects, but in the run below the minimal_model.tflite artifact contains
exactly such an operator and the incompatibility flag appears nowhere in
the report (the second loop, check_model_versions.py lines 57-60, prints
no compatibility flags). -/
theorem minimal_loop_does_not_flag_fc12 :
    incompatLine ∉
      check_model_versions "2.15.0" (.error "missing")
        (.ok ⟨[1, 32000, 1], [1, 3], [⟨some "FULLY_CONNECTED", some 12⟩]⟩) := by
  decide

/-- C1 amended: in the best_model.tflite inspection loop, an operator
named FULLY_CONNECTED with version 12 is flagged incompatible and any
other FULLY_CONNECTED version is reported compatible; the
minimal_model.tflite loop prints only the entry line, with no
compatibility flag. -/
theorem fc_flagging_in_best_loop_only (v : Option Int) :
    reportOpBest ⟨some "FULLY_CONNECTED", v⟩ =
      (if v = some 12 then
        [entryLine "FULLY_CONNECTED" (opVersionStr ⟨some "FULLY_CONNECTED", v⟩),
         incompatLine]
      else
        [entryLine "FULLY_CONNECTED" (opVersionStr ⟨some "FULLY_CONNECTED", v⟩),
         compatLine (opVersionStr ⟨some "FULLY_CONNECTED", v⟩)]) ∧
    reportOpMinimal ⟨some "FULLY_CONNECTED", v⟩ =
      [entryLine "FULLY_CONNECTED" (opVersionStr ⟨some "FULLY_CONNECTED", v⟩)] := by
  constructor
  · unfold reportOpBest
    by_cases h : v = some 12 <;> simp [opName, h]
  · rfl

/-- C2: for a well-formed artifact (every loader entry has a name and a
non-negative integer version), the inspection loops enumerate the
operator entries in exactly the loader order — the minimal loop prints
exactly one entry line per operator, in order, and the best loop prints
the same entry line first for each operator — and each entry line shows
the loader-reported name and non-negative integer version. -/
theorem inspection_enumerates_in_loader_order (m : ModelInfo)
    (h : ∀ op ∈ m.ops, wellFormedOpB op = true) :
    (m.ops.map reportOpMinimal).flatten =
      m.ops.map (fun op => entryLine (opName op) (opVersionStr op)) ∧
    (m.ops.map (fun op => (reportOpBest op).head?) =
      m.ops.map (fun op => some (entryLine (opName op) (opVersionStr op)))) ∧
    ∀ op ∈ m.ops, ∃ n, ∃ v : Int, op.op_name = some n ∧ op.version = some v ∧
      0 ≤ v ∧ opName op = n ∧ opVersionStr op = toString v := by
  refine ⟨flatten_map_singleton m.ops _, ?_, ?_⟩
  · simp [reportOpBest_headEntry]
  · intro op hop
    have hb := h op hop
    unfold wellFormedOpB at hb
    match hn : op.op_name, hv : op.version with
    | none, _ => simp [hn] at hb
    | some n, none => simp [hn, hv] at hb
    | some n, some v =>
        simp only [hn, hv, Option.isSome_some, Bool.true_and,
          decide_eq_true_eq] at hb
        exact ⟨n, v, rfl, rfl, hb, by simp [opName, hn],
          by simp [opVersionStr, hv]⟩

/-- C2 witness: a concrete two-operator artifact satisfying the
well-formedness hypothesis, with the conclusion instantiated there. -/
theorem inspection_enumerates_in_loader_order_witness :
    (∀ op ∈ (ModelInfo.mk [1, 32000, 1] [1, 3]
        [⟨some "CONV_2D", some 3⟩, ⟨some "FULLY_CONNECTED", some 11⟩]).ops,
      wellFormedOpB op = true) ∧
    (((ModelInfo.mk [1, 32000, 1] [1, 3]
        [⟨some "CONV_2D", some 3⟩, ⟨some "FULLY_CONNECTED", some 11⟩]).ops.map
          reportOpMinimal).flatten =
      (ModelInfo.mk [1, 32000, 1] [1, 3]
        [⟨some "CONV_2D", some 3⟩, ⟨some "FULLY_CONNECTED", some 11⟩]).ops.map
          (fun op => entryLine (opName op) (opVersionStr op)) ∧
    ((ModelInfo.mk [1, 32000, 1] [1, 3]
        [⟨some "CONV_2D", some 3⟩, ⟨some "FULLY_CONNECTED", some 11⟩]).ops.map
          (fun op => (reportOpBest op).head?) =
      (ModelInfo.mk [1, 32000, 1] [1, 3]
        [⟨some "CONV_2D", some 3⟩, ⟨some "FULLY_CONNECTED", some 11⟩]).ops.map
          (fun op => some (entryLine (opName op) (opVersionStr op)))) ∧
    ∀ op ∈ (ModelInfo.mk [1, 32000, 1] [1, 3]
        [⟨some "CONV_2D", some 3⟩, ⟨some "FULLY_CONNECTED", some 11⟩]).ops,
      ∃ n, ∃ v : Int, op.op_name = some n ∧ op.version = some v ∧
        0 ≤ v ∧ opName op = n ∧ opVersionStr op = toString v) :=
  ⟨by decide, inspection_enumerates_in_loader_order _ (by decide)⟩

/-- C3: when an artifact fails to load (missing, corrupt or unparsable
file), the corresponding analysis section consists of the announcement
line followed by exactly one diagnostic, the rest of the report — the
other artifact section and the summary — is produced unchanged, and the
script terminates normally (the embedding is a total function). -/
theorem inspection_failure_graceful (tfv eB eM : String)
    (rB rM : Except String ModelInfo) :
    analyzeBest (.error eB) =
      ["\nAnalyzing best_model.tflite...", errBestDiag eB] ∧
    analyzeMinimal (.error eM) =
      ["\nAnalyzing minimal_model.tflite...", errMinDiag eM] ∧
    check_model_versions tfv (.error eB) rM =
      headerLines tfv ++ sepBlock ++
        ["\nAnalyzing best_model.tflite...", errBestDiag eB] ++ sepBlock ++
        analyzeMinimal rM ++ sepBlock ++ summaryLines ∧
    check_model_versions tfv rB (.error eM) =
      headerLines tfv ++ sepBlock ++ analyzeBest rB ++ sepBlock ++
        ["\nAnalyzing minimal_model.tflite...", errMinDiag eM] ++ sepBlock ++
        summaryLines :=
  ⟨rfl, rfl, rfl, rfl⟩

/-- C4: the downgrade attempt convert_with_compatibility_flags returns
False on every input — both when the existing compiled model loads
successfully and when loading raises — and never returns True. -/
theorem downgrade_attempt_never_succeeds (r : Except String ModelInfo) :
    (convert_with_compatibility_flags r).2 = false := by
  cases r <;> rfl

/-- C5: whenever convert_with_compatibility_flags reports failure, the
main block falls back to emitting the template script: it writes
create_compatible_model.py with the fixed template contents and prints
the template-created note and the SOLUTION instructions. -/
theorem failure_triggers_template_fallback (r : Except String ModelInfo)
    (h : (convert_with_compatibility_flags r).2 = false) :
    (convert_main r).writes =
      [("create_compatible_model.py", scriptTemplate)] ∧
    (convert_main r).output =
      (convert_with_compatibility_flags r).1.output ++
        [ "✅ Created \x27create_compatible_model.py\x27 template",
          "Edit it with your original model path and run it" ] ++
        solutionLines := by
  cases r <;> exact ⟨rfl, rfl⟩

/-- C5 witness: the fallback at the concrete run in which loading the
existing model raised. -/
theorem failure_triggers_template_fallback_witness :
    (convert_with_compatibility_flags (.error "boom")).2 = false ∧
    (convert_main (.error "boom")).writes =
      [("create_compatible_model.py", scriptTemplate)] ∧
    (convert_main (.error "boom")).output =
      (convert_with_compatibility_flags (.error "boom")).1.output ++
        [ "✅ Created \x27create_compatible_model.py\x27 template",
          "Edit it with your original model path and run it" ] ++
        solutionLines :=
  ⟨rfl, failure_triggers_template_fallback (.error "boom") rfl⟩

/-- C6 counterexample: not every script catches every failure of its
primary operation — in create_compatible_model.py the load_model call of
line 6 sits outside the try block of lines 22-32, so a load failure
propagates as an unhandled exception instead of being printed; shown
concretely for a missing model file. -/
theorem unguarded_load_failure_propagates :
    ¬ scriptCatchesAllFailures ∧
    create_compatible_model_script
      (.error "No such file: your_original_model.h5") (.ok "tflitebytes") =
      .error "No such file: your_original_model.h5" := by
  constructor
  · intro h
    obtain ⟨eff, heff⟩ :=
      h (.error "No such file: your_original_model.h5") (.ok "tflitebytes")
    simp [create_compatible_model_script] at heff
  · rfl

/-- C6 amended: each script wraps its conversion and inspection steps in
broad failure-catching blocks that print the error message and either
return a boolean success flag or continue (check_model_versions.py uses
one block per artifact, two in total), but model loading and model
construction preceding those blocks is unguarded: a failure there, as in
create_compatible_model.py, propagates unhandled. -/
theorem catch_blocks_cover_conversion_only
    (tfv eB eM e1 e2 e3 e4 summ m : String)
    (t1 : Except String (ModelInfo × String))
    (t2 t3 : Except String ModelInfo) :
    errBestDiag eB ∈ check_model_versions tfv (.error eB) (.error eM) ∧
    errMinDiag eM ∈ check_model_versions tfv (.error eB) (.error eM) ∧
    convert_with_compatibility_flags (.error e1) =
      ({ output := ["Error: " ++ e1], writes := [] }, false) ∧
    create_compatible_model_script (.ok ()) (.error e2) =
      .ok { output := ["Conversion failed: " ++ e2], writes := [] } ∧
    create_compatible_model_script (.error e3) (.ok m) = .error e3 ∧
    (create_minimal_tflite (.error e4) t1).2 = false ∧
    minimalDiag e4 ∈ (create_minimal_tflite (.error e4) t1).1.output ∧
    (create_simple_compatible_model summ (.error e4) t2).2 = false ∧
    simpleDiag e4 ∈ (create_simple_compatible_model summ (.error e4) t2).1.output ∧
    (create_compatible_model_tf212 summ (.error e4) t3).2 = false ∧
    tf212Diag e4 ∈ (create_compatible_model_tf212 summ (.error e4) t3).1.output := by
  refine ⟨?_, ?_, rfl, rfl, rfl, rfl, ?_, rfl, ?_, rfl, ?_⟩ <;>
    simp [check_model_versions, headerLines, sepBlock, analyzeBest,
      analyzeMinimal, summaryLines, create_minimal_tflite,
      create_simple_compatible_model, create_compatible_model_tf212]

/-- C7: for each artifact-building routine, the shape semantics of the
constructed model maps the declared input, single-channel audio of 32000
samples with a unit batch dimension, to the declared 3-class output. -/
theorem builder_shapes_match_construction :
    minimalInputSpec = [1, 32000, 1] ∧
    simple_model_shape minimalInputSpec = some [1, 3] ∧
    simpleInputSpec = [1, 32000, 1] ∧
    create_simple_compatible_model_shape simpleInputSpec = some [1, 3] ∧
    tf212InputSpec = [1, 32000, 1] ∧
    create_compatible_model_shape tf212InputSpec = some [1, 3] :=
  ⟨rfl, rfl, rfl, rfl, rfl, rfl⟩

/-- C8 counterexample: the claim that no script sets environment
variables and that every written file is a model artifact fails twice —
create_tf212_compatible.py line 10 sets TF_USE_LEGACY_KERAS, and the
fallback of convert_model_compatible.py writes the helper script
create_compatible_model.py, which is not an artifact path. -/
theorem env_var_and_helper_script_effects :
    ¬ noExternalStateClaim ∧
    moduleEnvSets = [("TF_USE_LEGACY_KERAS", "1")] ∧
    (convert_main (.error "boom")).writes =
      [("create_compatible_model.py", scriptTemplate)] ∧
    isArtifactPath "create_compatible_model.py" = false := by
  refine ⟨?_, rfl, rfl, by decide⟩
  intro h
  exact absurd h.1 (by decide)

/-- C8 amended: the scripts use no network interfaces; the only
environment-variable effect is create_tf212_compatible.py setting
TF_USE_LEGACY_KERAS to 1 at import, the only non-artifact file ever
written is the helper script create_compatible_model.py emitted by the
fallback of convert_model_compatible.py, and every other file any script
writes is a .tflite artifact under assets/models/. -/
theorem external_state_effects_characterized (r : Except String ModelInfo)
    (lm : Except String Unit) (cv : Except String String) (summ : String)
    (t1 : Except String (ModelInfo × String))
    (t2 t3 : Except String ModelInfo) :
    moduleEnvSets = [("TF_USE_LEGACY_KERAS", "1")] ∧
    ((convert_main r).writes.all
      (fun w => isArtifactPath w.1 || w.1 == "create_compatible_model.py")) =
      true ∧
    (convert_with_compatibility_flags r).1.writes = [] ∧
    ((writesOf (create_compatible_model_script lm cv)).all
      (fun w => isArtifactPath w.1)) = true ∧
    ((create_minimal_tflite cv t1).1.writes.all
      (fun w => isArtifactPath w.1)) = true ∧
    ((create_simple_compatible_model summ cv t2).1.writes.all
      (fun w => isArtifactPath w.1)) = true ∧
    ((create_compatible_model_tf212 summ cv t3).1.writes.all
      (fun w => isArtifactPath w.1)) = true := by
  refine ⟨rfl, ?_, ?_, ?_, ?_, ?_, ?_⟩
  · cases r <;>
      simp [convert_main, convert_with_compatibility_flags,
        create_compatible_converter_script]
  · cases r <;> rfl
  · cases lm with
    | error e => rfl
    | ok u =>
        cases cv <;>
          simp [create_compatible_model_script, writesOf, artifactPath_best]
  · cases cv with
    | error e => rfl
    | ok mdl =>
        cases t1 <;> simp [create_minimal_tflite, artifactPath_minimal]
  · cases cv with
    | error e => rfl
    | ok mdl =>
        cases t2 <;>
          simp [create_simple_compatible_model, artifactPath_simple]
  · cases cv with
    | error e => rfl
    | ok mdl =>
        cases t3 <;>
          simp [create_compatible_model_tf212, artifactPath_best]

/-- C9: the downgrade attempt convert_with_compatibility_flags performs
no file write on either branch, so the filesystem is unchanged by it. -/
theorem downgrade_attempt_writes_nothing (r : Except String ModelInfo) :
    (convert_with_compatibility_flags r).1.writes = [] := by
  cases r <;> rfl

/-- C10: in every artifact-building routine the artifact is written only
after a successful conversion: when the conversion raises, the routine
prints its diagnostic, returns False and writes nothing; when the
conversion succeeds, the converted bytes are written to the fixed
artifact path regardless of the outcome of the later self-test. -/
theorem no_artifact_written_on_conversion_failure (e summ mdl : String)
    (t1 : Except String (ModelInfo × String))
    (t2 t3 : Except String ModelInfo) :
    create_minimal_tflite (.error e) t1 =
      ({ output := [minimalDiag e], writes := [] }, false) ∧
    create_simple_compatible_model summ (.error e) t2 =
      ({ output := ["Model summary:", summ, simpleDiag e], writes := [] },
        false) ∧
    create_compatible_model_tf212 summ (.error e) t3 =
      ({ output := ["Model summary:", summ, "Converting model...",
          tf212Diag e], writes := [] }, false) ∧
    (create_minimal_tflite (.ok mdl) t1).1.writes =
      [("assets/models/minimal_model.tflite", mdl)] ∧
    (create_simple_compatible_model summ (.ok mdl) t2).1.writes =
      [("assets/models/simple_compatible_model.tflite", mdl)] ∧
    (create_compatible_model_tf212 summ (.ok mdl) t3).1.writes =
      [("assets/models/best_model_compatible.tflite", mdl)] := by
  refine ⟨rfl, rfl, rfl, ?_, ?_, ?_⟩
  · cases t1 <;> rfl
  · cases t2 <;> rfl
  · cases t3 <;> rfl
